import Mathlib

/-
Verification of the OVMS charging scheduler.

Namespace `V31` embeds the recovery engine of the v3.2 scheduler module
(the file with `handleChargeInterruption`, `monitorSOC`, `scheduleAfterDelay`,
`processPendingTimers`, `performClimateWake`, `attemptChargeRestart`,
`checkSchedule`, `onPlugIn`, `onUnplug` and the exported commands).

Namespace `CJ` embeds the schedule optimizer of charging.js
(`calculateOptimalStart` and the decision structure of `checkSchedule`).

Conventions of the embedding:
- JavaScript numbers for SOC, kWh, hours and rates become `Rat`; timestamps
  (`Date.now()` milliseconds) and minute-of-day values become `Int`;
  hour/minute config fields become `Int` (they are written by integer-typed
  commands and `parseInt` loaders).
- Telemetry reads (`getSOC`, `isCharging`, `isPluggedIn`,
  `calculateEffectiveCapacity`, `getBatteryParams`) are snapshot-consistent
  within one handler (single-threaded runtime), so each handler takes an
  `Env` record holding the values those reads return.
- Side effects (`OvmsCommand.Exec`, `OvmsNotify.Raise`) become an output
  trace `List Out`; notification text is abstracted to a constructor
  carrying the numeric data interpolated into the message.  All `Exec`
  calls in the source are individually wrapped in try/catch and a failure
  only logs, so command execution never throws out of a handler; the
  embedding records the command that was issued.
- Timer callbacks are closures in the source; the three closures that are
  ever scheduled (the retry-restart closure from `handleChargeInterruption`,
  the climate-off closure and the wake-completion closure from
  `performClimateWake`) are defunctionalized into the inductive `Cb`.
-/

namespace V31

/-- Vehicle commands issued through `OvmsCommand.Exec`. -/
inductive Cmd
  | chargeStart
  | chargeStop
  | climateOn
  | climateOff
deriving DecidableEq, Repr

/-- User-facing messages raised through `notify(...)`, abstracted to the
numeric data interpolated into the message text. -/
inductive Note
  | manualNoRetry
  | failedTerminal (soc : ℚ)
  | interrupted (soc : ℚ) (delayMinutes : Nat) (attempt : Nat)
  | cannotRestartUnplugged
  | targetReached (soc : ℚ)
  | restarted
  | chargedTo (soc : ℚ)
  | chargingStartedScheduled
  | manualStarted
  | alreadyAtTarget (soc : ℚ)
  | scheduledMsg
deriving DecidableEq, Repr

/-- One observable side effect of a handler. -/
inductive Out
  | notify (n : Note)
  | cmd (c : Cmd)
deriving DecidableEq, Repr

/-- The three closures the source ever passes to `scheduleAfterDelay`:
the retry closure (runs `attemptChargeRestart`), the climate-off closure
(10s into the wake cycle) and the wake-completion closure (5s later;
reissues `charge start`). -/
inductive Cb
  | retryRestart
  | climateOff
  | wakeDone
deriving DecidableEq, Repr

/-- An entry of `state.pendingTimers`: `{id, callback, executeTime}`. -/
structure Timer where
  id : Nat
  executeTime : Int
  cb : Cb
deriving DecidableEq, Repr

/-- An hour/minute pair as stored in `config.cheapWindowStart` etc. -/
structure HM where
  hour : Int
  minute : Int
deriving DecidableEq, Repr

/-- The `config` object (the fields the claims exercise). -/
structure Config where
  targetSOC : ℚ
  readyByHour : Int
  readyByMinute : Int
  cheapWindowStart : HM
  cheapWindowEnd : HM
  chargerRate : ℚ
deriving DecidableEq, Repr

/-- The mutable `state` object of the module. -/
structure St where
  monitoring : Bool
  manualOverride : Bool
  scheduledChargeActive : Bool
  retryCount : Nat
  retryTimerId : Option Nat
  scheduledStartTime : Option Int
  scheduledEndTime : Option Int
  pendingTimers : List Timer
  timerCounter : Nat
deriving DecidableEq, Repr

/-- Telemetry and clock snapshot for one handler invocation: the values
returned by `getSOC`, `isCharging`, `isPluggedIn`, `Date.now()`,
`getCurrentMinutes()` and `calculateEffectiveCapacity()`. -/
structure Env where
  soc : ℚ
  charging : Bool
  pluggedIn : Bool
  nowMs : Int
  nowMin : Int
  effCap : ℚ
deriving DecidableEq, Repr

/-- The initial `state` literal of the module. -/
def initSt : St :=
  { monitoring := false
    manualOverride := false
    scheduledChargeActive := false
    retryCount := 0
    retryTimerId := none
    scheduledStartTime := none
    scheduledEndTime := none
    pendingTimers := []
    timerCounter := 0 }

/-- Default `config` literal of the module (target 80%, ready-by 07:30,
cheap window 23:30 to 05:30, charger 1.8 kW). -/
def defaultConfig : Config :=
  { targetSOC := 80
    readyByHour := 7
    readyByMinute := 30
    cheapWindowStart := ⟨23, 30⟩
    cheapWindowEnd := ⟨5, 30⟩
    chargerRate := 9 / 5 }

/-- Source `scheduleAfterDelay(callback, delayMs)`: allocates the next timer
id and pushes `{id, callback, executeTime: Date.now() + delayMs}` onto
`state.pendingTimers`; returns the id. -/
def scheduleAfterDelay (env : Env) (cb : Cb) (delayMs : Int) (s : St) : Nat × St :=
  let tid := s.timerCounter + 1
  (tid, { s with
            timerCounter := tid
            pendingTimers := s.pendingTimers ++ [⟨tid, env.nowMs + delayMs, cb⟩] })

/-- Source `cancelTimer(timerId)`: filters the entry with that id out of
`state.pendingTimers` (defined in the source but never called). -/
def cancelTimer (timerId : Nat) (s : St) : St :=
  { s with pendingTimers := s.pendingTimers.filter (fun t => t.id ≠ timerId) }

/-- Source `calculateEnergyNeeded(currentSOC, targetSOC)`:
`(targetSOC - currentSOC) / 100 * effectiveCapacity`, with the
SOH-adjusted capacity read from telemetry passed in explicitly.
Note the source applies no `max(0, _)` clamp. -/
def calculateEnergyNeeded (currentSOC targetSOC effCap : ℚ) : ℚ :=
  (targetSOC - currentSOC) / 100 * effCap

/-- Result record of `calculateSchedule` (the cost fields of the source
feed only notification text and are not modelled). -/
structure ScheduleResult where
  kwhNeeded : ℚ
  hoursNeeded : ℚ
  scheduledStartMin : Int
  scheduledEndMin : Int
  mustStartEarly : Bool
deriving DecidableEq, Repr

/-- Source `calculateSchedule(currentSOC, targetSOC)`: energy and duration,
then the latest-start / cheap-window-start decision with single day-wrap
adjustments.  `Int.tmod` is JavaScript's `%` (truncating remainder). -/
def calculateSchedule (cfg : Config) (env : Env) (currentSOC targetSOC : ℚ) :
    ScheduleResult :=
  let kwhNeeded := calculateEnergyNeeded currentSOC targetSOC env.effCap
  let hoursNeeded := kwhNeeded / cfg.chargerRate
  let readyByMin := cfg.readyByHour * 60 + cfg.readyByMinute
  let cheapStartMin := cfg.cheapWindowStart.hour * 60 + cfg.cheapWindowStart.minute
  let hoursNeededMins : Int := ⌈hoursNeeded * 60⌉
  let latestStartMin0 := readyByMin - hoursNeededMins
  let latestStartMin := if latestStartMin0 < 0 then latestStartMin0 + 1440 else latestStartMin0
  let waitBudget := Int.tmod (readyByMin - cheapStartMin + 1440) 1440
  let pick : Int × Bool :=
    if waitBudget < hoursNeededMins then (latestStartMin, true) else (cheapStartMin, false)
  let scheduledEndMin0 := pick.1 + hoursNeededMins
  let scheduledEndMin := if 1440 ≤ scheduledEndMin0 then scheduledEndMin0 - 1440 else scheduledEndMin0
  { kwhNeeded := kwhNeeded
    hoursNeeded := hoursNeeded
    scheduledStartMin := pick.1
    scheduledEndMin := scheduledEndMin
    mustStartEarly := pick.2 }

/-- Line 549 of the source, `state.retryCount++` inside
`handleChargeInterruption`: the counter value at the point where the
handler is deciding whether to give up. -/
def interruptionIncrement (s : St) : St :=
  { s with retryCount := s.retryCount + 1 }

/-- Source `handleChargeInterruption()`: ignore non-scheduled charges;
under manual override notify and drop the session; otherwise increment the
retry counter, give up past 3 attempts (terminal notification naming the
SOC, reset), else pick the 2/5/10-minute backoff delay, notify with the
attempt count and schedule the retry closure. -/
def handleChargeInterruption (cfg : Config) (env : Env) (s : St) : St × List Out :=
  if s.scheduledChargeActive = false then (s, [])
  else if s.manualOverride = true then
    ({ s with scheduledChargeActive := false, monitoring := false },
     [.notify .manualNoRetry])
  else
    let s1 := interruptionIncrement s
    if 3 < s1.retryCount then
      ({ s1 with scheduledChargeActive := false, monitoring := false, retryCount := 0 },
       [.notify (.failedTerminal env.soc)])
    else
      let delayMinutes : Nat :=
        if s1.retryCount = 1 then 2 else if s1.retryCount = 2 then 5 else 10
      let delayMs : Int := (delayMinutes : Int) * 60 * 1000
      let sched := scheduleAfterDelay env .retryRestart delayMs s1
      ({ sched.2 with retryTimerId := some sched.1 },
       [.notify (.interrupted env.soc delayMinutes s1.retryCount)])

/-- Source `performClimateWake(callback)`: issue `climatecontrol on`
(try/catch-wrapped) and schedule the climate-off closure 10000 ms out; the
completion closure (the only `callback` the source ever passes, the
charge-restart continuation) is reached via `Cb.climateOff` then
`Cb.wakeDone`. -/
def performClimateWake (env : Env) (s : St) : St × List Out :=
  ((scheduleAfterDelay env .climateOff 10000 s).2, [.cmd .climateOn])

/-- Source `attemptChargeRestart()`: re-verify plug-in, re-verify SOC
against the target, otherwise run the climate wake cycle whose completion
closure reissues `charge start`.  The source comment claims the retry
count is reset on successful restart, but no code does so. -/
def attemptChargeRestart (cfg : Config) (env : Env) (s : St) : St × List Out :=
  if env.pluggedIn = false then
    ({ s with scheduledChargeActive := false, monitoring := false, retryCount := 0 },
     [.notify .cannotRestartUnplugged])
  else if cfg.targetSOC ≤ env.soc then
    ({ s with scheduledChargeActive := false, monitoring := false, retryCount := 0 },
     [.notify (.targetReached env.soc)])
  else
    performClimateWake env s

/-- Invocation of one defunctionalized timer callback.  `climateOff`
executes `climatecontrol off` and schedules the 5000 ms completion timer;
`wakeDone` runs the charge-restart continuation (`charge start` plus a
restart notification, state untouched). -/
def runCb (cfg : Config) (env : Env) : Cb → St → St × List Out
  | .retryRestart, s => attemptChargeRestart cfg env s
  | .climateOff, s => ((scheduleAfterDelay env .wakeDone 5000 s).2, [.cmd .climateOff])
  | .wakeDone, s => (s, [.cmd .chargeStart, .notify .restarted])

/-- Loop body of `processPendingTimers`: walk the timer list in order,
firing every entry with `now >= executeTime` (threading the state through
its callback) and collecting the not-yet-due entries in order. -/
def processGo (cfg : Config) (env : Env) : List Timer → St → St × List Out × List Timer
  | [], s => (s, [], [])
  | t :: ts, s =>
    if t.executeTime ≤ env.nowMs then
      let r1 := runCb cfg env t.cb s
      let r2 := processGo cfg env ts r1.1
      (r2.1, r1.2 ++ r2.2.1, r2.2.2)
    else
      let r := processGo cfg env ts s
      (r.1, r.2.1, t :: r.2.2)

/-- Source `processPendingTimers()`.  The JavaScript loop iterates over the
live `state.pendingTimers` array while building `remaining`, and finally
overwrites `state.pendingTimers` with `remaining`.  The only mutations a
callback performs on the array are `scheduleAfterDelay` pushes whose
`executeTime` is `now` plus a positive delay, so entries appended during
the loop are visited, found not due, and kept; the loop is therefore
equivalent to processing the original list and keeping the not-due
originals (in order) followed by the callback-appended timers (in push
order), which is what this definition computes. -/
def processPendingTimers (cfg : Config) (env : Env) (s : St) : St × List Out :=
  let r := processGo cfg env s.pendingTimers { s with pendingTimers := [] }
  ({ r.1 with pendingTimers := r.2.2 ++ r.1.pendingTimers }, r.2.1)

/-- Source `monitorSOC()` (the `ticker.60` handler): process pending
timers, then the monitoring checks — interruption detection, loss of the
monitoring flag when nothing is charging, and target-reached handling. -/
def monitorSOC (cfg : Config) (env : Env) (s : St) : St × List Out :=
  let r := processPendingTimers cfg env s
  let s1 := r.1
  if s1.monitoring = false then (s1, r.2)
  else if env.charging = false ∧ s1.scheduledChargeActive = true then
    let r2 := handleChargeInterruption cfg env s1
    (r2.1, r.2 ++ r2.2)
  else if env.charging = false then
    ({ s1 with monitoring := false }, r.2)
  else if cfg.targetSOC ≤ env.soc then
    ({ s1 with scheduledChargeActive := false, monitoring := false, retryCount := 0 },
     r.2 ++ [.cmd .chargeStop, .notify (.chargedTo env.soc)])
  else (s1, r.2)

/-- Source `exports.checkSchedule` (the clock-event handler): skip under
manual override; when a schedule is stored and the vehicle is plugged,
not charging and below target, start the scheduled charge if the current
minute is within 30 minutes (modulo day wrap) of the stored start. -/
def checkSchedule (cfg : Config) (env : Env) (s : St) : St × List Out :=
  if s.manualOverride = true then (s, [])
  else
    match s.scheduledStartTime with
    | some startMin =>
      if env.charging = false ∧ env.pluggedIn = true ∧ env.soc < cfg.targetSOC then
        let d0 : Int := ((env.nowMin - startMin).natAbs : Int)
        let diff := if 720 < d0 then 1440 - d0 else d0
        if diff ≤ 30 then
          ({ s with scheduledChargeActive := true, monitoring := true, retryCount := 0 },
           [.cmd .chargeStart, .notify .chargingStartedScheduled])
        else (s, [])
      else (s, [])
    | none => (s, [])

/-- Source `onPlugIn()`: skip (with a stop of any auto-started charge)
when already at target, otherwise compute and store the schedule and stop
the auto-started charge pending the scheduled start. -/
def onPlugIn (cfg : Config) (env : Env) (s : St) : St × List Out :=
  if cfg.targetSOC ≤ env.soc then
    (s, [.cmd .chargeStop, .notify (.alreadyAtTarget env.soc)])
  else
    let sch := calculateSchedule cfg env env.soc cfg.targetSOC
    ({ s with scheduledStartTime := some sch.scheduledStartMin
              scheduledEndTime := some sch.scheduledEndMin },
     [.cmd .chargeStop, .notify .scheduledMsg])

/-- Source `exports.start()` (manual start): refuse when unplugged or at
target; otherwise set manual override, drop the scheduled-charge flag,
enable monitoring, zero the retry counter and issue `charge start`. -/
def start (cfg : Config) (env : Env) (s : St) : St × List Out :=
  if env.pluggedIn = false then (s, [])
  else if cfg.targetSOC ≤ env.soc then (s, [])
  else
    ({ s with manualOverride := true, scheduledChargeActive := false,
              monitoring := true, retryCount := 0 },
     [.cmd .chargeStart, .notify .manualStarted])

/-- Source `exports.stop()` (manual stop): clear the session flags and the
retry counter and issue `charge stop`.  `state.pendingTimers` is not
touched. -/
def stop (s : St) : St × List Out :=
  ({ s with monitoring := false, scheduledChargeActive := false,
            manualOverride := false, retryCount := 0 },
   [.cmd .chargeStop])

/-- Source `onUnplug()`: clear all session state including every pending
timer. -/
def onUnplug (s : St) : St :=
  { s with scheduledChargeActive := false, manualOverride := false,
           monitoring := false, retryCount := 0,
           scheduledStartTime := none, scheduledEndTime := none,
           pendingTimers := [] }

/-- Source `exports.setTarget(soc)`: reject targets outside 20..100,
otherwise store (persistence is best-effort and not modelled). -/
def setTarget (soc : ℚ) (cfg : Config) : Bool × Config :=
  if soc < 20 ∨ 100 < soc then (false, cfg)
  else (true, { cfg with targetSOC := soc })

/-- Source `exports.setReadyBy(hour, minute)`: reject invalid times,
otherwise store. -/
def setReadyBy (hour minute : Int) (cfg : Config) : Bool × Config :=
  if hour < 0 ∨ 23 < hour ∨ minute < 0 ∨ 59 < minute then (false, cfg)
  else (true, { cfg with readyByHour := hour, readyByMinute := minute })

/-- Source `exports.setWindow(startHour, startMin, endHour, endMin)`:
stores the four values unconditionally — the source performs no range
validation here. -/
def setWindow (startHour startMin endHour endMin : Int) (cfg : Config) : Bool × Config :=
  (true, { cfg with cheapWindowStart := ⟨startHour, startMin⟩
                    cheapWindowEnd := ⟨endHour, endMin⟩ })

/-- States reachable from the module's initial state through the event
handlers and exported commands, under arbitrary telemetry and (since the
configuration commands can change `config` between events) arbitrary
configuration at each step. -/
inductive Reach : St → Prop
  | init : Reach initSt
  | tick (cfg : Config) (env : Env) (s : St) : Reach s → Reach (monitorSOC cfg env s).1
  | clock (cfg : Config) (env : Env) (s : St) : Reach s → Reach (checkSchedule cfg env s).1
  | plugIn (cfg : Config) (env : Env) (s : St) : Reach s → Reach (onPlugIn cfg env s).1
  | unplug (s : St) : Reach s → Reach (onUnplug s)
  | startOp (cfg : Config) (env : Env) (s : St) : Reach s → Reach (start cfg env s).1
  | stopOp (s : St) : Reach s → Reach (stop s).1

end V31

namespace CJ

/-- An hour/minute pair as held in charging.js's `config`. -/
structure HM where
  hour : Int
  minute : Int
deriving DecidableEq, Repr

/-- The charging.js `config` fields exercised by the optimizer and the
schedule checker. -/
structure Config where
  targetSOC : ℚ
  skipIfAbove : ℚ
  chargeRateKW : ℚ
  readyBy : Option HM
  cheapWindowStart : HM
  cheapWindowEnd : HM
  pricingStandard : ℚ
deriving DecidableEq, Repr

/-- Telemetry and clock snapshot: `v.b.soc`, `v.c.charging`, `v.c.pilot`,
`getBatteryParams().usable`, and the current instant in absolute minutes
(a `Date` at minute granularity; handlers zero out seconds with
`setHours(h, m, 0, 0)` before every comparison they make). -/
structure Env where
  soc : ℚ
  charging : Bool
  plugged : Bool
  usable : ℚ
  now : Int
deriving DecidableEq, Repr

/-- Midnight of the current day: `new Date()` with the time fields zeroed,
in absolute minutes. -/
def dayStart (now : Int) : Int := now - now % 1440

/-- A `Date` built by `setHours(t.hour, t.minute, 0, 0)` on today's date. -/
def todayAt (now : Int) (t : HM) : Int := dayStart now + t.hour * 60 + t.minute

/-- The `setHours` + `if (x <= now) x.setDate(x.getDate() + 1)` idiom: the
instant with time-of-day `t` shifted to the next strictly-future day. -/
def nextAfter (now : Int) (t : HM) : Int :=
  let x := todayAt now t
  if x ≤ now then x + 1440 else x

/-- The `socNeeded` / `kWhNeeded` computation shared by
`calculateOptimalStart` (lines 1576-1581) and `nextCharge` (lines
571-573): `(targetSOC - soc) / 100 * battery.usable`, unclamped. -/
def kWhNeededCJ (cfg : Config) (env : Env) : ℚ :=
  (cfg.targetSOC - env.soc) / 100 * env.usable

/-- `hoursNeeded = kWhNeeded / config.chargeRateKW`. -/
def hoursNeededCJ (cfg : Config) (env : Env) : ℚ :=
  kWhNeededCJ cfg env / cfg.chargeRateKW

/-- `minutesNeeded = Math.ceil(hoursNeeded * 60)`. -/
def minutesNeededCJ (cfg : Config) (env : Env) : Int :=
  ⌈hoursNeededCJ cfg env * 60⌉

/-- The result record of `calculateOptimalStart`. -/
structure OptResult where
  hour : Int
  minute : Int
  hoursNeeded : ℚ
  kWhNeeded : ℚ
  windowDurationHours : ℚ
  fitsInWindow : Bool
  overflowBefore : ℚ
  overflowAfter : ℚ
  overflowBeforeKWh : ℚ
  overflowAfterKWh : ℚ
  overflowCost : ℚ
  startEarly : Bool
  bufferHours : ℚ
  emergency : Bool
deriving DecidableEq, Repr

/-- Source `calculateOptimalStart()` of charging.js: `null` without a
ready-by or when no charge is needed; otherwise start at the next cheap
window start, and only when that would finish past the ready-by deadline
fall back to `deadline - minutesNeeded`, declaring an emergency when that
forced start is already in the past (the result then carries the current
wall-clock time).  Millisecond `Date` arithmetic of the source is carried
out in whole minutes, which all the quantities involved are. -/
def calculateOptimalStart (cfg : Config) (env : Env) : Option OptResult :=
  match cfg.readyBy with
  | none => none
  | some rb =>
    if cfg.targetSOC - env.soc ≤ 0 then none
    else
      let kWhNeeded := kWhNeededCJ cfg env
      let hoursNeeded := hoursNeededCJ cfg env
      let minutesNeeded := minutesNeededCJ cfg env
      let readyByTime := nextAfter env.now rb
      let windowStart := nextAfter env.now cfg.cheapWindowStart
      let windowEnd0 := todayAt env.now cfg.cheapWindowEnd
      let windowEnd := if windowEnd0 ≤ windowStart then windowEnd0 + 1440 else windowEnd0
      let windowDurationHours : ℚ := ((windowEnd - windowStart : Int) : ℚ) / 60
      let base : OptResult :=
        { hour := 0, minute := 0, hoursNeeded := hoursNeeded, kWhNeeded := kWhNeeded
          windowDurationHours := windowDurationHours
          fitsInWindow := decide (hoursNeeded ≤ windowDurationHours)
          overflowBefore := 0, overflowAfter := 0
          overflowBeforeKWh := 0, overflowAfterKWh := 0, overflowCost := 0
          startEarly := false, bufferHours := 0, emergency := false }
      let chargeEnd := windowStart + minutesNeeded
      if readyByTime < chargeEnd then
        let forcedStart := readyByTime - minutesNeeded
        if forcedStart ≤ env.now then
          some { base with emergency := true
                           hour := env.now % 1440 / 60
                           minute := env.now % 60 }
        else
          let overflowBefore : ℚ :=
            if forcedStart < windowStart then ((windowStart - forcedStart : Int) : ℚ) / 60 else 0
          let overflowBeforeKWh := overflowBefore * cfg.chargeRateKW
          let chargeEnd2 := forcedStart + minutesNeeded
          let overflowAfter : ℚ :=
            if windowEnd < chargeEnd2 then ((chargeEnd2 - windowEnd : Int) : ℚ) / 60 else 0
          let overflowAfterKWh := overflowAfter * cfg.chargeRateKW
          some { base with startEarly := true
                           overflowBefore := overflowBefore
                           overflowAfter := overflowAfter
                           overflowBeforeKWh := overflowBeforeKWh
                           overflowAfterKWh := overflowAfterKWh
                           overflowCost := (overflowBeforeKWh + overflowAfterKWh) * cfg.pricingStandard
                           hour := forcedStart % 1440 / 60
                           minute := forcedStart % 60 }
      else
        let bufferHours : ℚ := ((readyByTime - chargeEnd : Int) : ℚ) / 60
        if windowEnd < chargeEnd then
          let overflowAfter : ℚ := ((chargeEnd - windowEnd : Int) : ℚ) / 60
          let overflowAfterKWh := overflowAfter * cfg.chargeRateKW
          some { base with bufferHours := bufferHours
                           overflowAfter := overflowAfter
                           overflowAfterKWh := overflowAfterKWh
                           overflowCost := overflowAfterKWh * cfg.pricingStandard
                           fitsInWindow := false
                           hour := windowStart % 1440 / 60
                           minute := windowStart % 60 }
        else
          some { base with bufferHours := bufferHours
                           hour := windowStart % 1440 / 60
                           minute := windowStart % 60 }

/-- The action charging.js's `exports.checkSchedule` decides on (its side
effects are a `start(true)`, a `stop()`, or log output only). -/
inductive CheckAction
  | skippedManual
  | emergencyStart
  | autoStart
  | skipHighSOC
  | autoStop
  | keepCharging
  | noAction
deriving DecidableEq, Repr

/-- Source `exports.checkSchedule()` of charging.js, as the decision it
reaches: skip while a manual charge is active; in ready-by mode start
immediately on an emergency result (plugged, not charging, below the skip
threshold) before any window test; otherwise derive the start/stop minutes
for the mode, test (overnight-aware) window membership, and decide between
auto-start, skip, auto-stop, keep-charging and no action. -/
def checkScheduleCJ (cfg : Config) (env : Env) (manualChargeActive : Bool) : CheckAction :=
  if manualChargeActive = true then .skippedManual
  else
    let currentMinutes := env.now % 1440
    let decision : Int × Int × Bool :=
      match cfg.readyBy with
      | some rb =>
        match calculateOptimalStart cfg env with
        | some optimal =>
          if optimal.emergency = true ∧ env.charging = false ∧ env.plugged = true ∧
              env.soc < cfg.skipIfAbove then
            (0, 0, true)
          else
            (optimal.hour * 60 + optimal.minute, rb.hour * 60 + rb.minute, false)
        | none =>
          (cfg.cheapWindowStart.hour * 60 + cfg.cheapWindowStart.minute,
           rb.hour * 60 + rb.minute, false)
      | none =>
        (cfg.cheapWindowStart.hour * 60 + cfg.cheapWindowStart.minute,
         cfg.cheapWindowEnd.hour * 60 + cfg.cheapWindowEnd.minute, false)
    if decision.2.2 = true then .emergencyStart
    else
      let startMinutes := decision.1
      let stopMinutes := decision.2.1
      let inWindow :=
        if stopMinutes < startMinutes then
          decide (startMinutes ≤ currentMinutes ∨ currentMinutes < stopMinutes)
        else
          decide (startMinutes ≤ currentMinutes ∧ currentMinutes < stopMinutes)
      if inWindow = true ∧ env.charging = false ∧ env.plugged = true then
        if env.soc < cfg.skipIfAbove then .autoStart else .skipHighSOC
      else if inWindow = false ∧ env.charging = true then
        match cfg.readyBy with
        | some _ => if stopMinutes < currentMinutes then .autoStop else .keepCharging
        | none => .autoStop
      else .noAction

end CJ

/-- Modelled from the spec: `energyNeededKWh(current, target,
usableCapacity) = max(0, (target - current)/100 * usableCapacity)` — the
spec's formula for the energy-needed computation, stated for comparison
with the source's `calculateEnergyNeeded`. -/
def specEnergyNeededKWh (current target usableCapacity : ℚ) : ℚ :=
  max 0 ((target - current) / 100 * usableCapacity)

namespace CJ

/-- charging.js default configuration with a 07:30 ready-by set. -/
def cfgW : Config :=
  { targetSOC := 80, skipIfAbove := 75, chargeRateKW := 9 / 5, readyBy := some ⟨7, 30⟩,
    cheapWindowStart := ⟨23, 30⟩, cheapWindowEnd := ⟨5, 30⟩, pricingStandard := 7 / 25 }

/-- A 06:00 snapshot: SOC 50%, plugged, not charging, 40 kWh usable — the
07:30 deadline is no longer reachable (400 minutes of charging needed). -/
def envW : Env :=
  { soc := 50, charging := false, plugged := true, usable := 40, now := 360 }

end CJ

namespace V31

/-- Telemetry at plug-in for the reference run: SOC 50%, not charging,
plugged, clock at midnight, 40 kWh effective capacity. -/
def envPlug : Env :=
  { soc := 50, charging := false, pluggedIn := true, nowMs := 0, nowMin := 0, effCap := 40 }

/-- The same telemetry with the wall clock at the stored scheduled start
minute (23:30). -/
def envStart : Env := { envPlug with nowMin := 1410 }

/-- A tick snapshot during which charging has stopped; `nowMs` is held at
0 so that no backoff timer is yet due. -/
def envTick : Env := { envPlug with nowMin := 1410 }

/-- State after the plug-in event of the reference run (schedule stored). -/
def sPlugged : St := (onPlugIn defaultConfig envPlug initSt).1

/-- State after the clock event starts the scheduled charge. -/
def sSession : St := (checkSchedule defaultConfig envStart sPlugged).1

/-- State after the first tick that sees charging stopped. -/
def sInt1 : St := (monitorSOC defaultConfig envTick sSession).1

/-- State after the second consecutive interruption tick. -/
def sInt2 : St := (monitorSOC defaultConfig envTick sInt1).1

/-- State after the third consecutive interruption tick. -/
def sInt3 : St := (monitorSOC defaultConfig envTick sInt2).1

/-- Literal form of the session state just after the scheduled start. -/
def sSessionL : St :=
  { monitoring := true, manualOverride := false, scheduledChargeActive := true,
    retryCount := 0, retryTimerId := none, scheduledStartTime := some 1410,
    scheduledEndTime := some 370, pendingTimers := [], timerCounter := 0 }

/-- Literal form of the state after the first interruption tick. -/
def sInt1L : St :=
  { sSessionL with retryCount := 1, retryTimerId := some 1,
                   pendingTimers := [⟨1, 120000, .retryRestart⟩], timerCounter := 1 }

/-- Literal form of the state after the second interruption tick. -/
def sInt2L : St :=
  { sSessionL with retryCount := 2, retryTimerId := some 2,
                   pendingTimers := [⟨1, 120000, .retryRestart⟩, ⟨2, 300000, .retryRestart⟩],
                   timerCounter := 2 }

/-- Literal form of the state after the third interruption tick. -/
def sInt3L : St :=
  { sSessionL with retryCount := 3, retryTimerId := some 3,
                   pendingTimers := [⟨1, 120000, .retryRestart⟩, ⟨2, 300000, .retryRestart⟩,
                                     ⟨3, 600000, .retryRestart⟩],
                   timerCounter := 3 }

/-- A pending timer as `processPendingTimers` sees an arbitrary entry: the
callback closure is abstracted to its observable completion behavior,
`throws` recording whether invoking it raises.  The invocation is wrapped
in try/catch in the source, so completion mode cannot influence the
walk. -/
structure GTimer where
  id : Nat
  executeTime : Int
  throws : Bool
deriving DecidableEq, Repr

/-- Source `processPendingTimers()` over abstract callbacks: walk the list
in order; every entry with `now >= executeTime` is invoked (inside
try/catch, so an entry that throws still counts as invoked and the walk
continues unconditionally — the `throws` field is never consulted) and
dropped; the rest are kept in order.  Returns the invoked ids in
invocation order and the remaining list. -/
def fireDue (now : Int) : List GTimer → List Nat × List GTimer
  | [] => ([], [])
  | t :: ts =>
    let r := fireDue now ts
    if t.executeTime ≤ now then (t.id :: r.1, r.2) else (r.1, t :: r.2)

/-- A mid-retry session state holding one pending retry timer (a user
then calls `stop()`). -/
def sStale : St :=
  { monitoring := true, manualOverride := false, scheduledChargeActive := true,
    retryCount := 1, retryTimerId := some 1, scheduledStartTime := some 1410,
    scheduledEndTime := some 370, pendingTimers := [⟨1, 120000, .retryRestart⟩],
    timerCounter := 1 }

/-- A later tick snapshot at which the stale retry timer is due. -/
def envLate : Env :=
  { soc := 50, charging := false, pluggedIn := true, nowMs := 200000, nowMin := 600,
    effCap := 40 }

/-- A telemetry snapshot with the vehicle unplugged and above target
(what a wake-completion re-check would see). -/
def envUnpl : Env :=
  { soc := 90, charging := false, pluggedIn := false, nowMs := 0, nowMin := 0,
    effCap := 40 }

/-- State reached by a manual `start()` from the initial state. -/
def sManual : St := (start defaultConfig envPlug initSt).1

/-- A fresh-session state whose retry counter already stands at 3 with no
outstanding timers (used to instantiate the exhaustion theorems). -/
def sExhaust : St :=
  { monitoring := true, manualOverride := false, scheduledChargeActive := true,
    retryCount := 3, retryTimerId := none, scheduledStartTime := some 1410,
    scheduledEndTime := some 370, pendingTimers := [], timerCounter := 3 }

/-- The session invariant maintained by every handler: the retry counter
stays within the 3-attempt bound, and a session under manual override has
a zero retry counter. -/
def Inv (s : St) : Prop :=
  s.retryCount ≤ 3 ∧ (s.manualOverride = true → s.retryCount = 0)

theorem tmod_eval : Int.tmod 480 1440 = 480 := by decide

/-- Evaluation of the reference schedule: 12 kWh at 1.8 kW needs 400
minutes; starting at the cheap-window start 23:30 finishes at 06:10,
within the 07:30 ready-by budget. -/
theorem calcSched_eval :
    calculateSchedule defaultConfig envPlug envPlug.soc defaultConfig.targetSOC =
      { kwhNeeded := 12, hoursNeeded := 20 / 3, scheduledStartMin := 1410,
        scheduledEndMin := 370, mustStartEarly := false } := by
  norm_num [calculateSchedule, calculateEnergyNeeded, defaultConfig, envPlug, tmod_eval]

theorem sPlugged_eq :
    sPlugged = { initSt with scheduledStartTime := some 1410, scheduledEndTime := some 370 } := by
  simp only [sPlugged, onPlugIn, calcSched_eval]
  norm_num [defaultConfig, envPlug, initSt]

theorem sSession_eq : sSession = sSessionL := by
  rw [sSession, sPlugged_eq]; decide

theorem sInt1_eq : sInt1 = sInt1L := by
  rw [sInt1, sSession_eq]; decide

theorem sInt2_eq : sInt2 = sInt2L := by
  rw [sInt2, sInt1_eq]; decide

theorem sInt3_eq : sInt3 = sInt3L := by
  rw [sInt3, sInt2_eq]; decide

theorem inv_handle (cfg : Config) (env : Env) (s : St) (h : Inv s) :
    Inv (handleChargeInterruption cfg env s).1 := by
  obtain ⟨h1, h2⟩ := h
  simp only [handleChargeInterruption, interruptionIncrement, scheduleAfterDelay]
  split_ifs with g1 g2 g3 g4 g5
  · exact ⟨h1, h2⟩
  · exact ⟨h1, h2⟩
  · exact ⟨Nat.zero_le 3, fun _ => rfl⟩
  · exact ⟨Nat.not_lt.mp g3, fun hh => absurd hh g2⟩
  · exact ⟨Nat.not_lt.mp g3, fun hh => absurd hh g2⟩
  · exact ⟨Nat.not_lt.mp g3, fun hh => absurd hh g2⟩

theorem inv_attempt (cfg : Config) (env : Env) (s : St) (h : Inv s) :
    Inv (attemptChargeRestart cfg env s).1 := by
  obtain ⟨h1, h2⟩ := h
  simp only [attemptChargeRestart, performClimateWake, scheduleAfterDelay]
  split_ifs
  · exact ⟨Nat.zero_le 3, fun _ => rfl⟩
  · exact ⟨Nat.zero_le 3, fun _ => rfl⟩
  · exact ⟨h1, h2⟩

theorem inv_runCb (cfg : Config) (env : Env) (c : Cb) (s : St) (h : Inv s) :
    Inv (runCb cfg env c s).1 := by
  cases c with
  | retryRestart => exact inv_attempt cfg env s h
  | climateOff => exact h
  | wakeDone => exact h

theorem inv_processGo (cfg : Config) (env : Env) :
    ∀ (ts : List Timer) (s : St), Inv s → Inv (processGo cfg env ts s).1 := by
  intro ts
  induction ts with
  | nil => intro s h; exact h
  | cons t ts ih =>
    intro s h
    unfold processGo
    split_ifs with g
    · exact ih _ (inv_runCb cfg env t.cb s h)
    · exact ih _ h

theorem inv_processPending (cfg : Config) (env : Env) (s : St) (h : Inv s) :
    Inv (processPendingTimers cfg env s).1 := by
  unfold processPendingTimers
  exact inv_processGo cfg env s.pendingTimers { s with pendingTimers := [] } h

theorem inv_monitor (cfg : Config) (env : Env) (s : St) (h : Inv s) :
    Inv (monitorSOC cfg env s).1 := by
  have hp := inv_processPending cfg env s h
  simp only [monitorSOC]
  split_ifs with g1 g2 g3 g4
  · exact hp
  · exact inv_handle cfg env _ hp
  · exact ⟨hp.1, hp.2⟩
  · exact ⟨Nat.zero_le 3, fun _ => rfl⟩
  · exact hp

theorem inv_check (cfg : Config) (env : Env) (s : St) (h : Inv s) :
    Inv (checkSchedule cfg env s).1 := by
  obtain ⟨h1, h2⟩ := h
  cases g : s.scheduledStartTime with
  | none =>
    simp only [checkSchedule, g]
    split_ifs <;> exact ⟨h1, h2⟩
  | some m =>
    simp only [checkSchedule, g]
    split_ifs <;>
      first
        | exact ⟨h1, h2⟩
        | exact ⟨Nat.zero_le 3, fun _ => rfl⟩

theorem inv_plugIn (cfg : Config) (env : Env) (s : St) (h : Inv s) :
    Inv (onPlugIn cfg env s).1 := by
  obtain ⟨h1, h2⟩ := h
  simp only [onPlugIn]
  split_ifs <;> exact ⟨h1, h2⟩

theorem inv_start (cfg : Config) (env : Env) (s : St) (h : Inv s) :
    Inv (start cfg env s).1 := by
  obtain ⟨h1, h2⟩ := h
  simp only [start]
  split_ifs
  · exact ⟨h1, h2⟩
  · exact ⟨h1, h2⟩
  · exact ⟨Nat.zero_le 3, fun _ => rfl⟩

theorem inv_stop (s : St) (_h : Inv s) : Inv (stop s).1 :=
  ⟨by simp [stop], by simp [stop]⟩

theorem inv_unplug (s : St) (_h : Inv s) : Inv (onUnplug s) :=
  ⟨by simp [onUnplug], by simp [onUnplug]⟩

/-- Every reachable state satisfies the session invariant. -/
theorem reach_inv (s : St) (h : Reach s) : Inv s := by
  induction h with
  | init => exact ⟨by simp [initSt], by simp [initSt]⟩
  | tick cfg env s _ ih => exact inv_monitor cfg env s ih
  | clock cfg env s _ ih => exact inv_check cfg env s ih
  | plugIn cfg env s _ ih => exact inv_plugIn cfg env s ih
  | unplug s _ ih => exact inv_unplug s ih
  | startOp cfg env s _ ih => exact inv_start cfg env s ih
  | stopOp s _ ih => exact inv_stop s ih

/-- The give-up branch of `handleChargeInterruption`: on a scheduled,
non-manual session whose retry counter already stands at 3, the handler
emits exactly the terminal notification naming the last-known SOC and
resets the session. -/
theorem handle_giveup (cfg : Config) (env : Env) (s : St)
    (hact : s.scheduledChargeActive = true) (hman : s.manualOverride = false)
    (hrc : s.retryCount = 3) :
    handleChargeInterruption cfg env s =
      ({ s with scheduledChargeActive := false, monitoring := false, retryCount := 0 },
       [.notify (.failedTerminal env.soc)]) := by
  unfold handleChargeInterruption interruptionIncrement
  simp [hact, hman, hrc]

/-- The manual-override branch of `handleChargeInterruption`: notify that
there is no auto-retry and drop the session flags; nothing else changes
and nothing is scheduled. -/
theorem handle_manual (cfg : Config) (env : Env) (s : St)
    (ha : s.scheduledChargeActive = true) (hm : s.manualOverride = true) :
    handleChargeInterruption cfg env s =
      ({ s with scheduledChargeActive := false, monitoring := false },
       [.notify .manualNoRetry]) := by
  simp [handleChargeInterruption, ha, hm]

/-- The first guard of `handleChargeInterruption`: a non-scheduled charge
is ignored entirely. -/
theorem handle_skip (cfg : Config) (env : Env) (s : St)
    (ha : s.scheduledChargeActive = false) :
    handleChargeInterruption cfg env s = (s, []) := by
  simp [handleChargeInterruption, ha]

/-- A state with monitoring off and no pending timers is untouched by the
ticker handler. -/
theorem monitor_idle (cfg : Config) (env : Env) (s : St)
    (hm : s.monitoring = false) (hp : s.pendingTimers = []) :
    monitorSOC cfg env s = (s, []) := by
  cases s with
  | mk mon man act rc rti sst sen pt tc =>
    dsimp only at hm hp
    subst hm; subst hp
    simp [monitorSOC, processPendingTimers, processGo]

/-- The retry branch of `handleChargeInterruption`: on a scheduled,
non-manual session with fewer than 3 attempts used, the handler increments
the counter, notifies with the attempt count and schedules the retry
closure after the backoff delay. -/
theorem handle_retry (cfg : Config) (env : Env) (s : St)
    (hact : s.scheduledChargeActive = true) (hman : s.manualOverride = false)
    (hrc : s.retryCount < 3) :
    (handleChargeInterruption cfg env s).1.retryCount = s.retryCount + 1 ∧
    (handleChargeInterruption cfg env s).2 =
      [.notify (.interrupted env.soc
        (if s.retryCount + 1 = 1 then 2 else if s.retryCount + 1 = 2 then 5 else 10)
        (s.retryCount + 1))] := by
  unfold handleChargeInterruption interruptionIncrement scheduleAfterDelay
  have : ¬ (3 < s.retryCount + 1) := by omega
  simp [hact, hman, this]

end V31

/-- A time-of-day with a nonnegative minute offset always yields a
strictly future instant under the next-future-occurrence construction. -/
theorem nextAfter_gt (now : Int) (t : CJ.HM) (h : 0 ≤ t.hour * 60 + t.minute) :
    now < CJ.nextAfter now t := by
  simp only [CJ.nextAfter, CJ.todayAt, CJ.dayStart]
  split_ifs with g <;> omega

/-- C1 (counterexample): along a reachable run of the scheduled session
(plug-in, scheduled start, then ticks that see charging stopped), after 3
consecutive interruption transitions the machine has NOT reached the
failed outcome: each of the three ticks emitted a retry notification (none
terminal), and the session is still active with retry count 3 and
monitoring on — the terminal notification and reset only come with a 4th
interruption. -/
theorem C1_counterexample :
    V31.Reach V31.sInt3 ∧
    (V31.monitorSOC V31.defaultConfig V31.envTick V31.sSession).2
        = [.notify (.interrupted 50 2 1)] ∧
    (V31.monitorSOC V31.defaultConfig V31.envTick V31.sInt1).2
        = [.notify (.interrupted 50 5 2)] ∧
    (V31.monitorSOC V31.defaultConfig V31.envTick V31.sInt2).2
        = [.notify (.interrupted 50 10 3)] ∧
    V31.sInt3.scheduledChargeActive = true ∧
    V31.sInt3.monitoring = true ∧
    V31.sInt3.retryCount = 3 := by
  refine ⟨?_, ?_, ?_, ?_, ?_, ?_, ?_⟩
  · exact V31.Reach.tick V31.defaultConfig V31.envTick V31.sInt2
      (V31.Reach.tick V31.defaultConfig V31.envTick V31.sInt1
        (V31.Reach.tick V31.defaultConfig V31.envTick V31.sSession
          (V31.Reach.clock V31.defaultConfig V31.envStart V31.sPlugged
            (V31.Reach.plugIn V31.defaultConfig V31.envPlug V31.initSt V31.Reach.init))))
  · rw [V31.sSession_eq]; decide
  · rw [V31.sInt1_eq]; decide
  · rw [V31.sInt2_eq]; decide
  · rw [V31.sInt3_eq]; decide
  · rw [V31.sInt3_eq]; decide
  · rw [V31.sInt3_eq]; decide

/-- C1 (amended): for a scheduled, non-manual session the FOURTH
consecutive interruption — the one taken with the retry counter already at
3 — reaches the failed outcome: the handler emits exactly one terminal
notification naming the last-known SOC, resets the session to idle (retry
count 0, scheduled-charge flag cleared, monitoring off), and, when no
retry callbacks are outstanding, subsequent ticks leave the state
untouched and take no further action until the next plug-in event. -/
theorem C1_amended (cfg : V31.Config) (env : V31.Env) (s : V31.St)
    (hact : s.scheduledChargeActive = true) (hman : s.manualOverride = false)
    (hrc : s.retryCount = 3) :
    V31.handleChargeInterruption cfg env s =
      ({ s with scheduledChargeActive := false, monitoring := false, retryCount := 0 },
       [.notify (.failedTerminal env.soc)]) ∧
    (s.pendingTimers = [] → ∀ env' : V31.Env,
      V31.monitorSOC cfg env'
          { s with scheduledChargeActive := false, monitoring := false, retryCount := 0 } =
        ({ s with scheduledChargeActive := false, monitoring := false, retryCount := 0 },
         [])) := by
  refine ⟨V31.handle_giveup cfg env s hact hman hrc, fun hp env' => ?_⟩
  exact V31.monitor_idle cfg env' _ rfl hp

/-- C1 (witness): the amended theorem at the concrete exhausted session
state. -/
theorem C1_witness :
    V31.handleChargeInterruption V31.defaultConfig V31.envTick V31.sExhaust =
      ({ V31.sExhaust with scheduledChargeActive := false, monitoring := false,
                           retryCount := 0 },
       [.notify (.failedTerminal 50)]) ∧
    (V31.sExhaust.pendingTimers = [] → ∀ env' : V31.Env,
      V31.monitorSOC V31.defaultConfig env'
          { V31.sExhaust with scheduledChargeActive := false, monitoring := false,
                              retryCount := 0 } =
        ({ V31.sExhaust with scheduledChargeActive := false, monitoring := false,
                             retryCount := 0 }, [])) :=
  C1_amended V31.defaultConfig V31.envTick V31.sExhaust rfl rfl rfl

/-- C2 (counterexample): a reachable state of a scheduled, non-manual
session with retry counter 3 exists, and on the next interruption the
handler's own increment (line `state.retryCount++`) drives the counter to
4 > 3 while the handler is deciding whether to give up — so the counter
does exceed 3 during the operation. -/
theorem C2_counterexample :
    V31.Reach V31.sInt3 ∧
    V31.sInt3.scheduledChargeActive = true ∧
    V31.sInt3.manualOverride = false ∧
    3 < (V31.interruptionIncrement V31.sInt3).retryCount := by
  refine ⟨?_, ?_, ?_, ?_⟩
  · exact V31.Reach.tick V31.defaultConfig V31.envTick V31.sInt2
      (V31.Reach.tick V31.defaultConfig V31.envTick V31.sInt1
        (V31.Reach.tick V31.defaultConfig V31.envTick V31.sSession
          (V31.Reach.clock V31.defaultConfig V31.envStart V31.sPlugged
            (V31.Reach.plugIn V31.defaultConfig V31.envPlug V31.initSt V31.Reach.init))))
  · rw [V31.sInt3_eq]; decide
  · rw [V31.sInt3_eq]; decide
  · rw [V31.sInt3_eq]; decide

/-- C2 (amended): at every operation boundary — i.e. in every reachable
state — the retry counter never exceeds 3; the bound is only exceeded
transiently inside `handleChargeInterruption`, between its increment and
the give-up reset. -/
theorem C2_amended (s : V31.St) (h : V31.Reach s) : s.retryCount ≤ 3 :=
  (V31.reach_inv s h).1

/-- C2 (witness): the amended bound at the initial state. -/
theorem C2_witness : V31.initSt.retryCount ≤ 3 :=
  C2_amended V31.initSt V31.Reach.init

/-- C3: in every reachable state with manual override set, the retry
counter is 0, and an interruption handled there schedules no deferred
callback, leaves the counter at 0 and leaves no scheduled charge active;
when the interruption actually concerned an active scheduled charge the
handler does nothing but emit the single no-auto-retry notification and
return the session to idle. -/
theorem C3_theorem (cfg : V31.Config) (env : V31.Env) (s : V31.St)
    (hr : V31.Reach s) (hm : s.manualOverride = true) :
    s.retryCount = 0 ∧
    (V31.handleChargeInterruption cfg env s).1.pendingTimers = s.pendingTimers ∧
    (V31.handleChargeInterruption cfg env s).1.retryCount = 0 ∧
    (V31.handleChargeInterruption cfg env s).1.scheduledChargeActive = false ∧
    (s.scheduledChargeActive = true →
      V31.handleChargeInterruption cfg env s =
        ({ s with scheduledChargeActive := false, monitoring := false },
         [.notify .manualNoRetry])) := by
  have h0 : s.retryCount = 0 := (V31.reach_inv s hr).2 hm
  by_cases ha : s.scheduledChargeActive = true
  · have he := V31.handle_manual cfg env s ha hm
    rw [he]
    exact ⟨h0, rfl, h0, rfl, fun _ => rfl⟩
  · have hfa : s.scheduledChargeActive = false := by
      revert ha; cases s.scheduledChargeActive <;> simp
    have he := V31.handle_skip cfg env s hfa
    rw [he]
    exact ⟨h0, rfl, h0, hfa, fun hsa => absurd hsa ha⟩

/-- C3 (witness): the theorem at the reachable manual-session state. -/
theorem C3_witness :
    V31.sManual.retryCount = 0 ∧
    (V31.handleChargeInterruption V31.defaultConfig V31.envTick V31.sManual).1.pendingTimers
        = V31.sManual.pendingTimers ∧
    (V31.handleChargeInterruption V31.defaultConfig V31.envTick V31.sManual).1.retryCount = 0 ∧
    (V31.handleChargeInterruption V31.defaultConfig V31.envTick
        V31.sManual).1.scheduledChargeActive = false ∧
    (V31.sManual.scheduledChargeActive = true →
      V31.handleChargeInterruption V31.defaultConfig V31.envTick V31.sManual =
        ({ V31.sManual with scheduledChargeActive := false, monitoring := false },
         [.notify .manualNoRetry])) :=
  C3_theorem V31.defaultConfig V31.envTick V31.sManual
    (V31.Reach.startOp V31.defaultConfig V31.envPlug V31.initSt V31.Reach.init)
    (by decide)

/-- C4: with a ready-by deadline set, a charge still needed, a valid cheap
window start time, and the forced start (deadline minus minutesNeeded) at
or before the current time, the optimizer returns an Emergency result
whose only start time is the current wall-clock time, and the schedule
checker (not charging, plugged in, below the skip threshold, no manual
charge active) decides to start immediately, before any tariff-window
test. -/
theorem C4_theorem (cfg : CJ.Config) (env : CJ.Env) (rb : CJ.HM)
    (hrb : cfg.readyBy = some rb)
    (hsoc : env.soc < cfg.targetSOC)
    (hw : 0 ≤ cfg.cheapWindowStart.hour * 60 + cfg.cheapWindowStart.minute)
    (hforced : CJ.nextAfter env.now rb - CJ.minutesNeededCJ cfg env ≤ env.now)
    (hch : env.charging = false) (hpl : env.plugged = true)
    (hskip : env.soc < cfg.skipIfAbove) :
    ∃ r : CJ.OptResult,
      CJ.calculateOptimalStart cfg env = some r ∧
      r.emergency = true ∧ r.startEarly = false ∧
      r.hour = env.now % 1440 / 60 ∧ r.minute = env.now % 60 ∧
      CJ.checkScheduleCJ cfg env false = .emergencyStart := by
  have hns : ¬ (cfg.targetSOC - env.soc ≤ 0) := by
    intro hle; linarith
  have hwin : env.now < CJ.nextAfter env.now cfg.cheapWindowStart :=
    nextAfter_gt env.now cfg.cheapWindowStart hw
  have hce : CJ.nextAfter env.now rb <
      CJ.nextAfter env.now cfg.cheapWindowStart + CJ.minutesNeededCJ cfg env := by
    omega
  obtain ⟨r, hopt, hem, hse, hh, hm⟩ :
      ∃ r : CJ.OptResult,
        CJ.calculateOptimalStart cfg env = some r ∧
        r.emergency = true ∧ r.startEarly = false ∧
        r.hour = env.now % 1440 / 60 ∧ r.minute = env.now % 60 := by
    simp only [CJ.calculateOptimalStart, hrb]
    rw [if_neg hns, if_pos hce, if_pos hforced]
    exact ⟨_, rfl, rfl, rfl, rfl, rfl⟩
  refine ⟨r, hopt, hem, hse, hh, hm, ?_⟩
  simp [CJ.checkScheduleCJ, hrb, hopt, hem, hch, hpl, hskip]

/-- C4 (witness): the theorem at the 06:00 emergency snapshot. -/
theorem C4_witness :
    ∃ r : CJ.OptResult,
      CJ.calculateOptimalStart CJ.cfgW CJ.envW = some r ∧
      r.emergency = true ∧ r.startEarly = false ∧
      r.hour = CJ.envW.now % 1440 / 60 ∧ r.minute = CJ.envW.now % 60 ∧
      CJ.checkScheduleCJ CJ.cfgW CJ.envW false = .emergencyStart :=
  C4_theorem CJ.cfgW CJ.envW ⟨7, 30⟩ rfl (by norm_num [CJ.cfgW, CJ.envW])
    (by norm_num [CJ.cfgW])
    (by norm_num [CJ.nextAfter, CJ.todayAt, CJ.dayStart, CJ.minutesNeededCJ,
                  CJ.hoursNeededCJ, CJ.kWhNeededCJ, CJ.cfgW, CJ.envW])
    rfl rfl (by norm_num [CJ.cfgW, CJ.envW])

/-- C5 (counterexample): the energy-needed computation applies no
max(0, _) clamp: at current SOC 90, target 80, 40 kWh capacity it returns
-4 kWh, a negative value, differing from the spec's clamped formula. -/
theorem C5_counterexample :
    V31.calculateEnergyNeeded 90 80 40 < 0 ∧
    V31.calculateEnergyNeeded 90 80 40 ≠ specEnergyNeededKWh 90 80 40 := by
  constructor
  · norm_num [V31.calculateEnergyNeeded]
  · norm_num [V31.calculateEnergyNeeded, specEnergyNeededKWh]

/-- C5 (amended): the energy-needed computation is the unclamped
`(target - current)/100 * capacity` (identical at both source sites): it
is monotonically non-decreasing in the target and non-increasing in the
current SOC for nonnegative capacity, equals 0 when current = target, and
is at most 0 — possibly strictly negative, never clamped to 0 — whenever
current >= target; callers skip separately before using it. -/
theorem C5_amended (c c' t t' cap : ℚ) (hcap : 0 ≤ cap) (ht : t ≤ t') (hc : c ≤ c') :
    V31.calculateEnergyNeeded c t cap = (t - c) / 100 * cap ∧
    V31.calculateEnergyNeeded c t cap ≤ V31.calculateEnergyNeeded c t' cap ∧
    V31.calculateEnergyNeeded c' t cap ≤ V31.calculateEnergyNeeded c t cap ∧
    (c = t → V31.calculateEnergyNeeded c t cap = 0) ∧
    (t ≤ c → V31.calculateEnergyNeeded c t cap ≤ 0) ∧
    (∀ (cfg : CJ.Config) (env : CJ.Env),
      CJ.kWhNeededCJ cfg env = V31.calculateEnergyNeeded env.soc cfg.targetSOC env.usable) := by
  refine ⟨rfl, ?_, ?_, ?_, ?_, fun cfg env => rfl⟩
  · have h1 : 0 ≤ (t' - t) / 100 * cap :=
      mul_nonneg (div_nonneg (by linarith) (by norm_num)) hcap
    have e : V31.calculateEnergyNeeded c t' cap
        = V31.calculateEnergyNeeded c t cap + (t' - t) / 100 * cap := by
      unfold V31.calculateEnergyNeeded; ring
    linarith
  · have h1 : 0 ≤ (c' - c) / 100 * cap :=
      mul_nonneg (div_nonneg (by linarith) (by norm_num)) hcap
    have e : V31.calculateEnergyNeeded c t cap
        = V31.calculateEnergyNeeded c' t cap + (c' - c) / 100 * cap := by
      unfold V31.calculateEnergyNeeded; ring
    linarith
  · intro hct
    unfold V31.calculateEnergyNeeded
    rw [hct]; ring
  · intro htc
    have h1 : 0 ≤ (c - t) / 100 * cap :=
      mul_nonneg (div_nonneg (by linarith) (by norm_num)) hcap
    have e : V31.calculateEnergyNeeded c t cap = -((c - t) / 100 * cap) := by
      unfold V31.calculateEnergyNeeded; ring
    linarith

/-- C5 (witness): the amended facts at current 50, alternative current 60,
target 70, alternative target 80, capacity 40 kWh. -/
theorem C5_witness :
    V31.calculateEnergyNeeded 50 70 40 = (70 - 50) / 100 * 40 ∧
    V31.calculateEnergyNeeded 50 70 40 ≤ V31.calculateEnergyNeeded 50 80 40 ∧
    V31.calculateEnergyNeeded 60 70 40 ≤ V31.calculateEnergyNeeded 50 70 40 ∧
    ((50 : ℚ) = 70 → V31.calculateEnergyNeeded 50 70 40 = 0) ∧
    ((70 : ℚ) ≤ 50 → V31.calculateEnergyNeeded 50 70 40 ≤ 0) ∧
    (∀ (cfg : CJ.Config) (env : CJ.Env),
      CJ.kWhNeededCJ cfg env = V31.calculateEnergyNeeded env.soc cfg.targetSOC env.usable) :=
  C5_amended 50 60 70 80 40 (by norm_num) (by norm_num) (by norm_num)

/-- C6: on a tick at time `now`, the scheduler invokes exactly the entries
whose due time is at or before `now` — in list order, which is scheduling
order since `scheduleAfterDelay` appends — removes exactly those entries,
keeps the rest in order, and the walk is insensitive to whether any
invoked callback throws (each invocation is try/catch-wrapped). -/
theorem C6_theorem :
    (∀ (now : Int) (ts : List V31.GTimer),
      (V31.fireDue now ts).1
          = (ts.filter (fun t => decide (t.executeTime ≤ now))).map V31.GTimer.id ∧
      (V31.fireDue now ts).2 = ts.filter (fun t => decide (now < t.executeTime)) ∧
      (V31.fireDue now ts).1
          = (V31.fireDue now (ts.map (fun t => { t with throws := false }))).1) ∧
    (∀ (env : V31.Env) (cb : V31.Cb) (d : Int) (s : V31.St),
      (V31.scheduleAfterDelay env cb d s).2.pendingTimers
        = s.pendingTimers ++ [⟨s.timerCounter + 1, env.nowMs + d, cb⟩]) := by
  refine ⟨?_, fun env cb d s => rfl⟩
  intro now ts
  induction ts with
  | nil => exact ⟨rfl, rfl, rfl⟩
  | cons t ts ih =>
    obtain ⟨ih1, ih2, ih3⟩ := ih
    by_cases h : t.executeTime ≤ now
    · refine ⟨?_, ?_, ?_⟩
      · simp [V31.fireDue, h, ih1]
      · simp [V31.fireDue, h, ih2, not_lt.mpr h]
      · simp [V31.fireDue, h, ih3]
    · refine ⟨?_, ?_, ?_⟩
      · simp [V31.fireDue, h, ih1]
      · simp [V31.fireDue, h, ih2, not_le.mp h]
      · simp [V31.fireDue, h, ih3]

/-- C7 (counterexample): `stop()` does not clear the pending timer
collection: a stale retry timer survives the manual stop and later fires
into the monitoring tick, starting a climate-wake sequence (and scheduling
its next step) even though the user stopped the session. -/
theorem C7_counterexample :
    (V31.stop V31.sStale).1.pendingTimers ≠ [] ∧
    (V31.stop V31.sStale).1.pendingTimers = V31.sStale.pendingTimers ∧
    (V31.monitorSOC V31.defaultConfig V31.envLate (V31.stop V31.sStale).1).2
        = [.cmd .climateOn] ∧
    (V31.monitorSOC V31.defaultConfig V31.envLate (V31.stop V31.sStale).1).1.pendingTimers
        = [⟨2, 210000, .climateOff⟩] := by decide

/-- C7 (amended): unplugging synchronously clears all pending deferred
callbacks (and the whole session); a user manual-stop resets the session
flags and the retry counter but leaves the pending deferred callbacks in
place — a stale wake/retry can still fire on a later tick. -/
theorem C7_amended (s : V31.St) :
    (V31.onUnplug s).pendingTimers = [] ∧
    (V31.onUnplug s).retryCount = 0 ∧
    (V31.stop s).1.pendingTimers = s.pendingTimers ∧
    (V31.stop s).1.monitoring = false ∧
    (V31.stop s).1.scheduledChargeActive = false ∧
    (V31.stop s).1.manualOverride = false ∧
    (V31.stop s).1.retryCount = 0 :=
  ⟨rfl, rfl, rfl, rfl, rfl, rfl, rfl⟩

/-- C8 (counterexample): the wake-completion callback performs no re-check
of plug-in state or SOC: with the vehicle unplugged and the SOC already at
or above target, it still reissues the charge-start command and leaves the
state untouched — no transition to idle and no unplugged/success
notification happens at completion. -/
theorem C8_counterexample :
    V31.runCb V31.defaultConfig V31.envUnpl .wakeDone V31.sSessionL
        = (V31.sSessionL, [.cmd .chargeStart, .notify .restarted]) ∧
    V31.envUnpl.pluggedIn = false ∧
    V31.defaultConfig.targetSOC ≤ V31.envUnpl.soc := by decide

/-- C8 (amended): the plug-in and SOC checks happen at the START of
`attemptChargeRestart`, before the wake sequence: if unplugged the session
goes to idle with a notification, if the target is already reached it goes
to idle with a success notification; otherwise climate-on is issued with
the climate-off step deferred 10000 ms, climate-off schedules the
completion step deferred 5000 ms (both as deferred callbacks, never
blocking), and the completion callback reissues charge-start
unconditionally, the session remaining active. -/
theorem C8_amended (cfg : V31.Config) (env : V31.Env) (s : V31.St) :
    (env.pluggedIn = false →
      V31.attemptChargeRestart cfg env s =
        ({ s with scheduledChargeActive := false, monitoring := false, retryCount := 0 },
         [.notify .cannotRestartUnplugged])) ∧
    (env.pluggedIn = true → cfg.targetSOC ≤ env.soc →
      V31.attemptChargeRestart cfg env s =
        ({ s with scheduledChargeActive := false, monitoring := false, retryCount := 0 },
         [.notify (.targetReached env.soc)])) ∧
    (env.pluggedIn = true → env.soc < cfg.targetSOC →
      V31.attemptChargeRestart cfg env s =
        ({ s with pendingTimers :=
                    s.pendingTimers ++ [⟨s.timerCounter + 1, env.nowMs + 10000, .climateOff⟩],
                  timerCounter := s.timerCounter + 1 },
         [.cmd .climateOn])) ∧
    (V31.runCb cfg env .climateOff s =
      ({ s with pendingTimers :=
                  s.pendingTimers ++ [⟨s.timerCounter + 1, env.nowMs + 5000, .wakeDone⟩],
                timerCounter := s.timerCounter + 1 },
       [.cmd .climateOff])) ∧
    (V31.runCb cfg env .wakeDone s = (s, [.cmd .chargeStart, .notify .restarted])) := by
  refine ⟨fun h1 => ?_, fun h1 h2 => ?_, fun h1 h2 => ?_, rfl, rfl⟩
  · simp [V31.attemptChargeRestart, h1]
  · simp [V31.attemptChargeRestart, h1, h2]
  · simp [V31.attemptChargeRestart, V31.performClimateWake, V31.scheduleAfterDelay,
          h1, not_le.mpr h2]

/-- C8 (witness): the unplugged branch of the amended theorem at the
unplugged snapshot. -/
theorem C8_witness :
    V31.attemptChargeRestart V31.defaultConfig V31.envUnpl V31.sSessionL =
      ({ V31.sSessionL with scheduledChargeActive := false, monitoring := false,
                            retryCount := 0 },
       [.notify .cannotRestartUnplugged]) :=
  (C8_amended V31.defaultConfig V31.envUnpl V31.sSessionL).1 rfl

/-- C9 (counterexample): `setWindow` performs no range validation: called
with hour 99 and minute 99 (far outside 0-23 / 0-59) it reports success
and the out-of-range values land in the configuration, which is not
retained. -/
theorem C9_counterexample :
    (V31.setWindow 99 99 5 30 V31.defaultConfig).1 = true ∧
    (V31.setWindow 99 99 5 30 V31.defaultConfig).2.cheapWindowStart = ⟨99, 99⟩ ∧
    (V31.setWindow 99 99 5 30 V31.defaultConfig).2 ≠ V31.defaultConfig := by decide

/-- C9 (amended): `setTarget` and `setReadyBy` validate their ranges at
the boundary — any out-of-range input is rejected and the original
configuration retained unchanged — but `setWindow` validates nothing: it
reports success and stores its four arguments unconditionally. -/
theorem C9_amended (soc : ℚ) (h m : Int) (cfg : V31.Config)
    (hsoc : soc < 20 ∨ 100 < soc)
    (hhm : h < 0 ∨ 23 < h ∨ m < 0 ∨ 59 < m) :
    V31.setTarget soc cfg = (false, cfg) ∧
    V31.setReadyBy h m cfg = (false, cfg) ∧
    (∀ sh sm eh em : Int,
      V31.setWindow sh sm eh em cfg =
        (true, { cfg with cheapWindowStart := ⟨sh, sm⟩, cheapWindowEnd := ⟨eh, em⟩ })) := by
  refine ⟨?_, ?_, fun sh sm eh em => rfl⟩
  · simp [V31.setTarget, hsoc]
  · rcases hhm with h1 | h1 | h1 | h1 <;> simp [V31.setReadyBy, h1]

/-- C9 (witness): the amended theorem at target 150 and ready-by hour
25. -/
theorem C9_witness :
    V31.setTarget 150 V31.defaultConfig = (false, V31.defaultConfig) ∧
    V31.setReadyBy 25 0 V31.defaultConfig = (false, V31.defaultConfig) ∧
    (∀ sh sm eh em : Int,
      V31.setWindow sh sm eh em V31.defaultConfig =
        (true, { V31.defaultConfig with cheapWindowStart := ⟨sh, sm⟩,
                                        cheapWindowEnd := ⟨eh, em⟩ })) :=
  C9_amended 150 25 0 V31.defaultConfig (Or.inr (by norm_num))
    (Or.inr (Or.inl (by norm_num)))

/-- C10: within one scheduled session a successful restart never resets
the retry counter — the entire restart chain (the retry callback when
still plugged and below target, the climate-off step and the completion
step) leaves it unchanged — while every non-exhausting interruption
increments it, so the counter is non-decreasing across interruptions
within a session; and the interruption taken with the counter at 3 (the
fourth of the session) always abandons it with the single terminal
notification and a reset, even when charging ran between retries. -/
theorem C10_theorem (cfg : V31.Config) (env : V31.Env) (s : V31.St) :
    (env.pluggedIn = true → env.soc < cfg.targetSOC →
      (V31.attemptChargeRestart cfg env s).1.retryCount = s.retryCount) ∧
    ((V31.runCb cfg env .climateOff s).1.retryCount = s.retryCount) ∧
    ((V31.runCb cfg env .wakeDone s).1.retryCount = s.retryCount) ∧
    (s.scheduledChargeActive = true → s.manualOverride = false → s.retryCount < 3 →
      (V31.handleChargeInterruption cfg env s).1.retryCount = s.retryCount + 1) ∧
    (s.scheduledChargeActive = true → s.manualOverride = false → s.retryCount = 3 →
      V31.handleChargeInterruption cfg env s =
        ({ s with scheduledChargeActive := false, monitoring := false, retryCount := 0 },
         [.notify (.failedTerminal env.soc)])) := by
  refine ⟨fun h1 h2 => ?_, rfl, rfl, fun ha hm hr => ?_, fun ha hm hr => ?_⟩
  · simp [V31.attemptChargeRestart, V31.performClimateWake, V31.scheduleAfterDelay,
          h1, not_le.mpr h2]
  · exact (V31.handle_retry cfg env s ha hm hr).1
  · exact V31.handle_giveup cfg env s ha hm hr

/-- C10 (witness): the increment conjunct at the state after the first
interruption (counter 1, a successful-restart-preserving chain away from
the next interruption). -/
theorem C10_witness :
    (V31.handleChargeInterruption V31.defaultConfig V31.envTick V31.sInt1L).1.retryCount
        = V31.sInt1L.retryCount + 1 :=
  (C10_theorem V31.defaultConfig V31.envTick V31.sInt1L).2.2.2.1 rfl rfl (by decide)
